import Mathlib

/-!
Shallow embedding of `src/ATM.c++` (edwinaloo/ATM-SIMULATION).

The C++ program is a single-threaded console ATM simulation with three
classes: `Account` (account number, PIN, balance), an abstract
`Transaction` with concrete variants `Deposit` and `Withdrawal`, and
`ATM` (an `unordered_map` registry from account number to account, plus
authentication and transaction dispatch).

Modelling decisions:
- The C++ `double` balance/amount is modelled as `ℚ`: the program only
  adds, subtracts and compares amounts, and the specification treats the
  balance as an exact signed decimal number.
- C++ mutation through an `Account*` pointer is modelled by explicit
  state passing: a mutating method takes and returns the `Account`.
- The `unordered_map<std::string, Account*>` registry is modelled as an
  association list `List (String × Account)`; `operator[]` assignment
  (insert-or-overwrite) replaces any existing binding for the key.
-/

/-- One in-memory bank account: account number, PIN and balance
(`class Account`, src/ATM.c++ lines 7-50). -/
structure Account where
  account_number : String
  pin : String
  balance : ℚ
deriving DecidableEq, Repr

/-- Method `check_balance` of `Account`: returns the current balance,
no side effect. -/
def Account.check_balance (account : Account) : ℚ :=
  account.balance

/-- Method `deposit` of `Account`: if `amount > 0` then
`balance += amount` and return `true`, else return `false` with no
mutation. -/
def Account.deposit (account : Account) (amount : ℚ) : Account × Bool :=
  if amount > 0 then
    ({ account with balance := account.balance + amount }, true)
  else
    (account, false)

/-- Method `withdraw` of `Account`: if `amount > 0 && amount <= balance`
then `balance -= amount` and return `true`, else return `false` with no
mutation. -/
def Account.withdraw (account : Account) (amount : ℚ) : Account × Bool :=
  if amount > 0 ∧ amount ≤ account.balance then
    ({ account with balance := account.balance - amount }, true)
  else
    (account, false)

/-- Method `verify_pin` of `Account`: `pin == entered_pin`, exact string
equality, no side effect. -/
def Account.verify_pin (account : Account) (entered_pin : String) : Bool :=
  account.pin == entered_pin

/-- Method `get_account_number` of `Account`. -/
def Account.get_account_number (account : Account) : String :=
  account.account_number

/-- The `Transaction` class hierarchy: the abstract base with its two
concrete subclasses `Deposit` and `Withdrawal`, each holding an amount.
The target account, held as a pointer in C++, is passed explicitly to
`execute`. -/
inductive Transaction where
  | Deposit (amount : ℚ)
  | Withdrawal (amount : ℚ)
deriving DecidableEq, Repr

/-- Virtual method `execute`: `Deposit.execute` calls
`account->deposit(amount)`, `Withdrawal.execute` calls
`account->withdraw(amount)`; the updated account is returned alongside
the boolean result. -/
def Transaction.execute (t : Transaction) (account : Account) : Account × Bool :=
  match t with
  | .Deposit amount => account.deposit amount
  | .Withdrawal amount => account.withdraw amount

/-- The `ATM` class: its only state is the registry
`unordered_map<std::string, Account*> accounts`, modelled as an
association list. -/
structure ATM where
  accounts : List (String × Account)
deriving DecidableEq, Repr

/-- Method `add_account` of `ATM`:
`accounts[account->get_account_number()] = account` — insert or
overwrite the binding for that account number. -/
def ATM.add_account (atm : ATM) (account : Account) : ATM :=
  { accounts :=
      (account.get_account_number, account) ::
        atm.accounts.filter (fun p => p.1 != account.get_account_number) }

/-- Method `verify_pin` of `ATM`: look up the account number; if found
and the PIN verifies, return the account handle, else `nullptr`
(modelled as `none`). -/
def ATM.verify_pin (atm : ATM) (account_number : String) (pin : String) :
    Option Account :=
  match atm.accounts.lookup account_number with
  | some account => if account.verify_pin pin then some account else none
  | none => none

/-- Method `select_transaction` of `ATM`: construct the `Transaction`
variant named by `transaction_type` ("deposit" or "withdraw"); any other
string returns "Invalid transaction type" without touching the account.
Otherwise execute the transaction once and report the fixed
success/failure message. The account state after the call is returned
alongside the message (the C++ mutates through the pointer). -/
def ATM.select_transaction (account : Account) (transaction_type : String)
    (amount : ℚ) : Account × String :=
  if transaction_type == "deposit" then
    let r := (Transaction.Deposit amount).execute account
    (r.1, if r.2 then "Transaction successful" else "Transaction failed")
  else if transaction_type == "withdraw" then
    let r := (Transaction.Withdrawal amount).execute account
    (r.1, if r.2 then "Transaction successful" else "Transaction failed")
  else
    (account, "Invalid transaction type")

/-- Method `check_balance` of `ATM`: delegates to the account. -/
def ATM.check_balance (account : Account) : ℚ :=
  account.check_balance

/-- First seeded account of `main`: `Account account1("123456", "1234", 1000)`. -/
def account1 : Account :=
  { account_number := "123456", pin := "1234", balance := 1000 }

/-- Second seeded account of `main`: `Account account2("654321", "4321", 500)`. -/
def account2 : Account :=
  { account_number := "654321", pin := "4321", balance := 500 }

/-- The ATM registry state after the startup of `main`: an empty ATM,
then `add_account(&account1)`, then `add_account(&account2)`. -/
def initial_atm : ATM :=
  ((ATM.mk []).add_account account1).add_account account2

/-- One call against an `Account` in the interface the console loop can
reach: deposit, withdraw, check balance, or verify a PIN. Used to state
the balance non-negativity invariant over arbitrary call sequences. -/
inductive AccountOp where
  | dep (amount : ℚ)
  | wd (amount : ℚ)
  | check
  | vp (candidate : String)
deriving DecidableEq, Repr

/-- The account state after one `AccountOp`: `check_balance` and
`verify_pin` are `const` in the C++ and leave the account unchanged. -/
def AccountOp.apply (account : Account) (op : AccountOp) : Account :=
  match op with
  | .dep amount => (account.deposit amount).1
  | .wd amount => (account.withdraw amount).1
  | .check => account
  | .vp _ => account

/-- The account state after a finite sequence of `AccountOp` calls. -/
def Account.run (account : Account) (ops : List AccountOp) : Account :=
  ops.foldl AccountOp.apply account

/-- C1: for every account and amount `a` with `0 < a ≤ balance`,
`withdraw a` decreases the balance by exactly `a` (all other fields
unchanged) and returns `true`; for `a > balance` or `a ≤ 0` the account
is unchanged and `withdraw a` returns `false`. -/
theorem withdraw_spec (account : Account) (a : ℚ) :
    (0 < a ∧ a ≤ account.balance →
      account.withdraw a =
        ({ account with balance := account.balance - a }, true)) ∧
    (account.balance < a ∨ a ≤ 0 →
      account.withdraw a = (account, false)) := by
  constructor
  · intro h
    simp [Account.withdraw, h.1, h.2]
  · intro h
    have hneg : ¬ (a > 0 ∧ a ≤ account.balance) := by
      rcases h with h | h
      · rintro ⟨_, hle⟩; exact absurd hle (not_le.mpr h)
      · rintro ⟨hpos, _⟩; exact absurd hpos (not_lt.mpr h)
    simp [Account.withdraw, hneg]

/-- Concrete instantiation of `withdraw_spec`: on an account with
balance 10, withdrawing 3 succeeds leaving 7, and withdrawing 20
fails leaving the account unchanged. -/
theorem withdraw_spec_witness :
    (Account.mk "1" "p" 10).withdraw 3 =
        ({ Account.mk "1" "p" 10 with balance := (10 : ℚ) - 3 }, true) ∧
    (Account.mk "1" "p" 10).withdraw 20 = (Account.mk "1" "p" 10, false) :=
  ⟨(withdraw_spec (Account.mk "1" "p" 10) 3).1 ⟨by norm_num, by norm_num⟩,
   (withdraw_spec (Account.mk "1" "p" 10) 20).2 (Or.inl (by norm_num))⟩

/-- C2: for every account, `deposit a` with `a > 0` increases the
balance by exactly `a` (all other fields unchanged) and returns `true`;
with `a ≤ 0` it leaves the account unchanged and returns `false`. -/
theorem deposit_spec (account : Account) (a : ℚ) :
    (0 < a →
      account.deposit a =
        ({ account with balance := account.balance + a }, true)) ∧
    (a ≤ 0 → account.deposit a = (account, false)) := by
  constructor
  · intro h
    simp [Account.deposit, h]
  · intro h
    simp [Account.deposit, not_lt.mpr h]

/-- Concrete instantiation of `deposit_spec`: on an account with
balance 10, depositing 5 succeeds leaving 15, and depositing 0 fails
leaving the account unchanged. -/
theorem deposit_spec_witness :
    (Account.mk "1" "p" 10).deposit 5 =
        ({ Account.mk "1" "p" 10 with balance := (10 : ℚ) + 5 }, true) ∧
    (Account.mk "1" "p" 10).deposit 0 = (Account.mk "1" "p" 10, false) :=
  ⟨(deposit_spec (Account.mk "1" "p" 10) 5).1 (by norm_num),
   (deposit_spec (Account.mk "1" "p" 10) 0).2 le_rfl⟩

/-- C7: `Account.verify_pin` returns `true` exactly when the candidate
equals the stored PIN as a string (case-sensitive); it is a pure
function of the account and the candidate, so it has no side effect. -/
theorem verify_pin_iff (account : Account) (c : String) :
    account.verify_pin c = true ↔ c = account.pin := by
  unfold Account.verify_pin
  rw [beq_iff_eq]
  exact eq_comm

/-- Concrete instantiation of `verify_pin_iff`: the exact PIN verifies,
and a case-changed PIN and the empty string do not. -/
theorem verify_pin_iff_witness :
    (Account.mk "1" "aB" 0).verify_pin "aB" = true ∧
    (Account.mk "1" "aB" 0).verify_pin "ab" = false ∧
    (Account.mk "1" "aB" 0).verify_pin "" = false := by
  refine ⟨(verify_pin_iff (Account.mk "1" "aB" 0) "aB").mpr rfl, ?_, ?_⟩
  · exact Bool.eq_false_iff.mpr fun hc =>
      absurd ((verify_pin_iff (Account.mk "1" "aB" 0) "ab").mp hc) (by decide)
  · exact Bool.eq_false_iff.mpr fun hc =>
      absurd ((verify_pin_iff (Account.mk "1" "aB" 0) "").mp hc) (by decide)

/-- C3: for kind "deposit" (resp. "withdraw"), `select_transaction`
performs exactly one `Account.deposit` (resp. `Account.withdraw`) call
on the account and returns "Transaction successful" when that call
returns `true` and "Transaction failed" when it returns `false`. -/
theorem select_transaction_dispatch (account : Account) (amount : ℚ) :
    ATM.select_transaction account "deposit" amount =
      ((account.deposit amount).1,
        if (account.deposit amount).2 then "Transaction successful"
        else "Transaction failed") ∧
    ATM.select_transaction account "withdraw" amount =
      ((account.withdraw amount).1,
        if (account.withdraw amount).2 then "Transaction successful"
        else "Transaction failed") := by
  constructor
  · rfl
  · rfl

/-- C4: for every kind string other than "deposit" and "withdraw",
`select_transaction` returns "Invalid transaction type" and leaves the
account (all fields) unchanged. -/
theorem select_transaction_invalid (account : Account) (k : String)
    (amount : ℚ) (h1 : k ≠ "deposit") (h2 : k ≠ "withdraw") :
    ATM.select_transaction account k amount =
      (account, "Invalid transaction type") := by
  unfold ATM.select_transaction
  rw [if_neg (by simpa using h1), if_neg (by simpa using h2)]

/-- Concrete instantiation of `select_transaction_invalid` at kind
"transfer". -/
theorem select_transaction_invalid_witness :
    ATM.select_transaction (Account.mk "1" "p" 10) "transfer" 5 =
      (Account.mk "1" "p" 10, "Invalid transaction type") :=
  select_transaction_invalid (Account.mk "1" "p" 10) "transfer" 5
    (by decide) (by decide)

/-- C5: whenever `Transaction.execute` returns `false`, the target
account is completely unchanged: balance, account number and PIN all
keep their prior values. -/
theorem execute_false_unchanged (t : Transaction) (account : Account)
    (h : (t.execute account).2 = false) :
    (t.execute account).1 = account := by
  cases t with
  | Deposit amount =>
    by_cases hp : amount > 0
    · simp [Transaction.execute, Account.deposit, hp] at h
    · simp [Transaction.execute, Account.deposit, hp]
  | Withdrawal amount =>
    by_cases hp : amount > 0 ∧ amount ≤ account.balance
    · simp [Transaction.execute, Account.withdraw, hp] at h
    · simp [Transaction.execute, Account.withdraw, hp]

/-- Concrete instantiation of `execute_false_unchanged`: a deposit of 0
fails and leaves the account untouched. -/
theorem execute_false_unchanged_witness :
    ((Transaction.Deposit 0).execute (Account.mk "1" "p" 10)).1 =
      Account.mk "1" "p" 10 :=
  execute_false_unchanged (Transaction.Deposit 0) (Account.mk "1" "p" 10)
    (by norm_num [Transaction.execute, Account.deposit])

/-- C6: `ATM.verify_pin` returns an account handle exactly when the
identifier is registered and the PIN verifies against that account; an
unregistered identifier yields no handle whatever the PIN. -/
theorem atm_verify_pin_spec (atm : ATM) (id pin : String) :
    (∀ account : Account,
      atm.verify_pin id pin = some account ↔
        atm.accounts.lookup id = some account ∧
          account.verify_pin pin = true) ∧
    (atm.accounts.lookup id = none → atm.verify_pin id pin = none) := by
  constructor
  · intro account
    unfold ATM.verify_pin
    cases hl : atm.accounts.lookup id with
    | none => simp
    | some a =>
      show (if a.verify_pin pin = true then some a else none) = some account ↔
        some a = some account ∧ account.verify_pin pin = true
      by_cases hv : a.verify_pin pin = true
      · rw [if_pos hv]
        constructor
        · intro h
          obtain rfl : a = account := Option.some.inj h
          exact ⟨rfl, hv⟩
        · exact fun h => h.1
      · rw [if_neg hv]
        constructor
        · intro h
          exact absurd h (Option.noConfusion)
        · rintro ⟨h1, h2⟩
          obtain rfl : a = account := Option.some.inj h1
          exact absurd h2 hv
  · intro h
    unfold ATM.verify_pin
    rw [h]

/-- Concrete instantiation of `atm_verify_pin_spec`: in a one-account
registry, the right identifier and PIN authenticate, and an
unregistered identifier fails. -/
theorem atm_verify_pin_spec_witness :
    (ATM.mk [("1", Account.mk "1" "p" 10)]).verify_pin "1" "p" =
        some (Account.mk "1" "p" 10) ∧
    (ATM.mk [("1", Account.mk "1" "p" 10)]).verify_pin "2" "p" = none :=
  ⟨((atm_verify_pin_spec (ATM.mk [("1", Account.mk "1" "p" 10)])
        "1" "p").1 (Account.mk "1" "p" 10)).mpr ⟨rfl, rfl⟩,
   (atm_verify_pin_spec (ATM.mk [("1", Account.mk "1" "p" 10)])
        "2" "p").2 rfl⟩

/-- C8: registering `A1` and then `A2` under the same identifier leaves
the registry mapping that identifier to `A2` — authenticating with that
identifier and the PIN of `A2` returns `A2` — and the registry keys stay
duplicate-free after every `add_account` call. -/
theorem add_account_last_wins (atm : ATM) (A1 A2 : Account)
    (hid : A1.get_account_number = A2.get_account_number) :
    ((atm.add_account A1).add_account A2).accounts.lookup
        A2.get_account_number = some A2 ∧
    ((atm.add_account A1).add_account A2).verify_pin
        A2.get_account_number A2.pin = some A2 ∧
    ∀ (atm2 : ATM) (a : Account),
      (atm2.accounts.map Prod.fst).Nodup →
        ((atm2.add_account a).accounts.map Prod.fst).Nodup := by
  have hlook : ((atm.add_account A1).add_account A2).accounts.lookup
      A2.get_account_number = some A2 := by
    simp [ATM.add_account, List.lookup]
  refine ⟨hlook, ?_, ?_⟩
  · unfold ATM.verify_pin
    rw [hlook]
    simp [Account.verify_pin]
  · intro atm2 a hnd
    unfold ATM.add_account
    simp only [List.map_cons, List.nodup_cons]
    constructor
    · intro hmem
      obtain ⟨p, hp, hp1⟩ := List.mem_map.mp hmem
      have hne : (p.1 != a.get_account_number) = true :=
        (List.mem_filter.mp hp).2
      rw [hp1] at hne
      exact absurd rfl (bne_iff_ne.mp hne)
    · exact hnd.sublist ((List.filter_sublist _).map Prod.fst)

/-- Concrete instantiation of `add_account_last_wins`: two accounts
registered under identifier "1"; authenticating with the second PIN
returns the second account. -/
theorem add_account_last_wins_witness :
    (((ATM.mk []).add_account (Account.mk "1" "a" 1)).add_account
        (Account.mk "1" "b" 2)).verify_pin
      (Account.mk "1" "b" 2).get_account_number
      (Account.mk "1" "b" 2).pin = some (Account.mk "1" "b" 2) :=
  (add_account_last_wins (ATM.mk []) (Account.mk "1" "a" 1)
    (Account.mk "1" "b" 2) rfl).2.1

/-- C9: at startup the registry holds exactly the two seeded accounts;
authenticating with "123456"/"1234" yields the first account, whose
balance is 1000, is 1200 after `deposit 200`, and 1100 after a further
`withdraw 100`. -/
theorem main_scenario :
    initial_atm.accounts = [("654321", account2), ("123456", account1)] ∧
    account1 = Account.mk "123456" "1234" 1000 ∧
    account2 = Account.mk "654321" "4321" 500 ∧
    initial_atm.verify_pin "123456" "1234" = some account1 ∧
    account1.check_balance = 1000 ∧
    ((account1.deposit 200).1).check_balance = 1200 ∧
    ((((account1.deposit 200).1).withdraw 100).1).check_balance = 1100 := by
  refine ⟨?_, rfl, rfl, ?_, rfl, ?_, ?_⟩
  · simp [initial_atm, ATM.add_account, account1, account2,
      Account.get_account_number]
  · simp [initial_atm, ATM.add_account, ATM.verify_pin, account1, account2,
      Account.get_account_number, Account.verify_pin, List.lookup]
  · norm_num [account1, Account.deposit, Account.check_balance]
  · norm_num [account1, Account.deposit, Account.withdraw,
      Account.check_balance]

/-- Helper for the balance invariant: one `AccountOp` preserves
non-negativity of the balance. -/
theorem AccountOp.apply_nonneg (account : Account) (op : AccountOp)
    (h : 0 ≤ account.balance) : 0 ≤ (AccountOp.apply account op).balance := by
  cases op with
  | dep amount =>
    by_cases hp : amount > 0
    · simp only [AccountOp.apply, Account.deposit, if_pos hp]
      exact add_nonneg h hp.le
    · simpa only [AccountOp.apply, Account.deposit, if_neg hp] using h
  | wd amount =>
    by_cases hp : amount > 0 ∧ amount ≤ account.balance
    · simp only [AccountOp.apply, Account.withdraw, if_pos hp]
      show (0 : ℚ) ≤ account.balance - amount
      linarith [hp.2]
    · simpa only [AccountOp.apply, Account.withdraw, if_neg hp] using h
  | check => exact h
  | vp c => exact h

/-- C10: an account created with a non-negative balance keeps a
non-negative balance after every finite sequence of deposit, withdraw,
check-balance and verify-PIN calls with arbitrary arguments. -/
theorem balance_nonneg (account : Account) (h : 0 ≤ account.balance)
    (ops : List AccountOp) : 0 ≤ (account.run ops).balance := by
  induction ops generalizing account with
  | nil => simpa [Account.run] using h
  | cons op ops ih =>
    rw [Account.run, List.foldl_cons]
    exact ih (AccountOp.apply account op) (AccountOp.apply_nonneg account op h)

/-- Concrete instantiation of `balance_nonneg`: starting from balance 5,
a mixed sequence of operations (including an overdraw attempt and a
negative deposit) never drives the balance negative. -/
theorem balance_nonneg_witness :
    0 ≤ ((Account.mk "1" "p" 5).run
      [AccountOp.dep 3, AccountOp.wd 100, AccountOp.wd 2,
        AccountOp.vp "x", AccountOp.check, AccountOp.dep (-1)]).balance :=
  balance_nonneg (Account.mk "1" "p" 5) (by norm_num)
    [AccountOp.dep 3, AccountOp.wd 100, AccountOp.wd 2,
      AccountOp.vp "x", AccountOp.check, AccountOp.dep (-1)]
